import Mathlib

/-!
# Verification of the Tractor log-to-KPI aggregation engine

Shallow embedding of `src/analysis/local_analyzer.py` (class
`LocalLogAnalyzer`).  Each pandas DataFrame is modelled as a `List` of
records; a pandas/JSON value that can be absent is an `Option`; numeric
columns are `ℚ` (the analyzer never produces a NaN in an emitted numeric
cell: every division either has a nonempty group as denominator or is
explicitly guarded/defaulted in the source).

Modelling conventions, each justified against the source:
* `json.loads` (an external library) is a parameter `decode`; a raw line is
  decodable exactly when `decode` returns `some`.
* pandas `groupby(key)` drops rows whose key is NaN/None, so grouped views
  are keyed by plain `String`; SQL `GROUP BY` (duckdb, used only in
  `analyze_game_stats`) keeps a NULL group, so that view is keyed by
  `Option String`.
* pandas `agg('count')` counts the non-null values of the named column
  (`filterMap` + `length`), not the group size.
* pandas object-dtype `==` compares element-wise with Python `==`
  (`None == None` is `True`), which is `Option` equality.
* pandas `merge` matches null keys with null keys, which is `Option`
  equality on the join column.
* `Series.round(n)` is round-half-to-even at `n` decimals (`roundTo`).
* `ℚ` division by zero is `0` in Lean while pandas would give `inf`; the
  only place a zero denominator can reach a division in the source is
  `total_rounds / total_games` with `total_games = 0`, and every theorem
  about that quotient carries `0 < total_games`.
-/

namespace TractorKPI

/-- One element of a trick's `allPlays` array.  The source reads only
`play.get('playerId')`, tolerating absence, so the field is optional. -/
structure Play where
  playerId : Option String := none

/-- The nested `context` object of an AI decision event, read via
`context.get(...)` with defaults in `analyze_ai_strategic_effectiveness`. -/
structure DecisionContext where
  isAttackingTeam : Option Bool := none
  trickPosition : Option String := none
  pointPressure : Option String := none

/-- The `data` payload of a log entry, restricted to the keys the analyzer
reads with `dict.get`; a key missing from the JSON object is `none`. -/
structure Payload where
  attackingTeam : Option String := none
  defendingTeam : Option String := none
  winner : Option String := none
  winningPlayer : Option String := none
  trickPoints : Option ℚ := none
  allPlays : Option (List Play) := none
  finalPoints : Option ℚ := none
  attackingTeamPoints : Option ℚ := none
  kittyPoints : Option ℚ := none
  player : Option String := none
  decisionPoint : Option String := none
  context : Option DecisionContext := none
  reasoning : Option (List String) := none
  score : Option ℚ := none

/-- One decoded log line (a row of the frame built by `load_logs`).  All
top-level keys are optional: `json.loads` happily returns an object missing
any of them (e.g. `{}`), and `load_logs` performs no field validation. -/
structure LogEntry where
  event : Option String := none
  timestamp : Option String := none
  appVersion : Option String := none
  gameId : Option String := none
  data : Payload := {}

/-- `LocalLogAnalyzer.load_logs`: for each line, `json.loads` either
succeeds and the entry is appended, or raises `JSONDecodeError` and the
line is skipped (`continue`).  The JSON decoder is the external `json`
library, modelled as the parameter `decode`, returning `none` exactly on
the lines where `json.loads` raises. -/
def load_logs (decode : String → Option LogEntry) (lines : List String) :
    List LogEntry :=
  lines.filterMap decode

/-- The distinct non-null game ids among the `game_over` rows of one
appVersion group (`COUNT(DISTINCT gameId)` ignores SQL NULLs). -/
def distinctGames (df : List LogEntry) (v : Option String) : List String :=
  (((df.filter fun e => e.event = some "game_over" ∧ e.appVersion = v).filterMap
    fun e => e.gameId).dedup)

/-- A row of the `GameStats` view (`analyze_game_stats`): duckdb
`GROUP BY appVersion` keeps a NULL group, so the key is optional. -/
structure GameStat where
  appVersion : Option String
  total_games : ℕ

/-- `LocalLogAnalyzer.analyze_game_stats`:
`SELECT appVersion, COUNT(DISTINCT gameId) FROM df WHERE event = 'game_over'
GROUP BY appVersion`. -/
def analyze_game_stats (df : List LogEntry) : List GameStat :=
  let overs := df.filter fun e => e.event = some "game_over"
  ((overs.map fun e => e.appVersion).dedup).map fun v =>
    { appVersion := v
      total_games := (distinctGames df v).length }

/-- A row of the inner merge of `game_initialized` and `game_over` frames
on `gameId` inside `analyze_team_roles`. -/
structure MergedRoleRow where
  appVersion : Option String
  gameId : Option String
  attacking_team : Option String
  defending_team : Option String
  winner : Option String

/-- The `merged` frame of `analyze_team_roles`: inner join of the
`game_initialized` rows with the `game_over` rows on `gameId` (pandas
`merge` preserves left order and pairs every matching right row). -/
def analyze_team_roles_merged (df : List LogEntry) : List MergedRoleRow :=
  let game_init := df.filter fun e => e.event = some "game_initialized"
  let game_over := df.filter fun e => e.event = some "game_over"
  game_init.flatMap fun i =>
    (game_over.filter fun o => o.gameId = i.gameId).map fun o =>
      { appVersion := i.appVersion
        gameId := i.gameId
        attacking_team := i.data.attackingTeam
        defending_team := i.data.defendingTeam
        winner := o.data.winner }

/-- Round half to even (the rounding used by numpy/pandas `round`). -/
def rnd (q : ℚ) : ℤ :=
  if Int.fract q < 1/2 then ⌊q⌋
  else if 1/2 < Int.fract q then ⌊q⌋ + 1
  else if ⌊q⌋ % 2 = 0 then ⌊q⌋ else ⌊q⌋ + 1

/-- pandas `Series.round (d)`: round half to even at `d` decimal places. -/
def roundTo (d : ℕ) (q : ℚ) : ℚ := (rnd (q * 10 ^ d) : ℚ) / 10 ^ d

/-- A row of the `TeamRoleStats` view. -/
structure TeamRoleStat where
  appVersion : String
  total_games_with_roles : ℕ
  attacking_team_win_rate : ℚ
  defending_team_win_rate : ℚ

/-- The per-version aggregation step of `analyze_team_roles`
(`merged.groupby('appVersion').agg({'gameId': 'count', 'attacking_won':
'mean', 'defending_won': 'mean'})` with both rates rounded to 3 dp).
`attacking_won` is the object-dtype comparison
`attacking_team == winner` cast to int, so the mean over the group is the
matching-row count divided by the group size. -/
def teamRoleFor (merged : List MergedRoleRow) (v : String) : TeamRoleStat :=
  let g := merged.filter fun m => m.appVersion = some v
  { appVersion := v
    total_games_with_roles := (g.filterMap fun m => m.gameId).length
    attacking_team_win_rate :=
      roundTo 3 (((g.filter fun m => m.attacking_team = m.winner).length : ℚ) /
        (g.length : ℚ))
    defending_team_win_rate :=
      roundTo 3 (((g.filter fun m => m.defending_team = m.winner).length : ℚ) /
        (g.length : ℚ)) }

/-- `LocalLogAnalyzer.analyze_team_roles`: pandas `groupby('appVersion')`
drops the rows whose `appVersion` is null, so the group keys are the
distinct non-null versions of the merged frame. -/
def analyze_team_roles (df : List LogEntry) : List TeamRoleStat :=
  let merged := analyze_team_roles_merged df
  ((merged.filterMap fun m => m.appVersion).dedup).map fun v =>
    teamRoleFor merged v

/-- One flattened play observation (`position_data` entry in
`analyze_trick_performance`). -/
structure PlayObs where
  appVersion : Option String
  gameId : Option String
  winningPlayer : Option String
  trickPoints : ℚ
  playerId : Option String
  trickPosition : ℕ
  wonTrick : Bool

/-- The per-trick loop body of `analyze_trick_performance`: an empty or
absent `allPlays` produces no observations (`if all_plays:`); otherwise
each play at index `i` becomes one observation with `trickPosition = i + 1`
and `wonTrick = (play.get('playerId') == winningPlayer)` (an object
comparison, true also when both are `None`). -/
def flattenTrick (row : LogEntry) : List PlayObs :=
  let all_plays := row.data.allPlays.getD []
  if all_plays.isEmpty then []
  else all_plays.enum.map fun ip =>
    { appVersion := row.appVersion
      gameId := row.gameId
      winningPlayer := row.data.winningPlayer
      trickPoints := row.data.trickPoints.getD 0
      playerId := ip.2.playerId
      trickPosition := ip.1 + 1
      wonTrick := ip.2.playerId = row.data.winningPlayer }

/-- `LocalLogAnalyzer.analyze_trick_performance`: filter the
`trick_completed` rows and flatten each one's plays. -/
def analyze_trick_performance (df : List LogEntry) : List PlayObs :=
  (df.filter fun e => e.event = some "trick_completed").flatMap flattenTrick

/-- `total_rounds_approx` of `analyze_position_stats`:
`len(trick_positions) / 4 / len(trick_positions['appVersion'].unique())`
when the frame is nonempty, else `1` (`Series.unique` keeps a null as a
distinct value, hence `dedup` over the raw optional column). -/
def total_rounds_approx (tp : List PlayObs) : ℚ :=
  if tp.isEmpty then 1
  else (tp.length : ℚ) / 4 / (((tp.map fun o => o.appVersion).dedup).length : ℚ)

/-- A row of the `PositionStats` view. -/
structure PositionStat where
  appVersion : String
  trickPosition : ℕ
  total_tricks_at_position : ℕ
  tricks_won_at_position : ℕ
  points_won_at_position : ℚ
  position_win_rate : ℚ
  avg_points_when_winning : ℚ
  avg_points_per_round : ℚ

/-- The group keys of `trick_positions.groupby(['appVersion',
'trickPosition'])`; pandas drops groups whose key contains a null. -/
def positionKeys (tp : List PlayObs) : List (String × ℕ) :=
  ((tp.filterMap fun o => o.appVersion.map fun v => (v, o.trickPosition)).dedup)

/-- The per-group computation of `analyze_position_stats`:
counts, win count, points won while winning
(`(trickPoints * wonTrick).sum()`), then
`position_win_rate = won / total` (3 dp),
`avg_points_when_winning = points / max(won,1)` — the source replaces a
zero denominator by `1` (`.replace(0, 1)`) — (2 dp), and
`avg_points_per_round = points / total_rounds_approx` (2 dp). -/
def positionStatFor (tp : List PlayObs) (key : String × ℕ) : PositionStat :=
  let g := tp.filter fun o =>
    o.appVersion = some key.1 ∧ o.trickPosition = key.2
  let total := g.length
  let won := (g.filter fun o => o.wonTrick).length
  let pts := (g.map fun o => o.trickPoints * (if o.wonTrick then 1 else 0)).sum
  { appVersion := key.1
    trickPosition := key.2
    total_tricks_at_position := total
    tricks_won_at_position := won
    points_won_at_position := pts
    position_win_rate := roundTo 3 ((won : ℚ) / (total : ℚ))
    avg_points_when_winning :=
      roundTo 2 (pts / ((if won = 0 then 1 else won : ℕ) : ℚ))
    avg_points_per_round := roundTo 2 (pts / total_rounds_approx tp) }

/-- `LocalLogAnalyzer.analyze_position_stats` (empty input short-circuits
to an empty frame). -/
def analyze_position_stats (tp : List PlayObs) : List PositionStat :=
  if tp.isEmpty then []
  else (positionKeys tp).map fun k => positionStatFor tp k

/-- A row of the `PlayerPerformance` view. -/
structure PlayerStat where
  appVersion : String
  playerId : String
  total_tricks : ℕ
  tricks_won : ℕ
  total_points_won : ℚ
  player_win_rate : ℚ
  avg_points_per_trick : ℚ

/-- Group keys of `groupby(['appVersion', 'playerId'])`: groups with a null
in either key component are dropped by pandas. -/
def playerKeys (tp : List PlayObs) : List (String × String) :=
  ((tp.filterMap fun o =>
    o.appVersion.bind fun v => o.playerId.map fun p => (v, p)).dedup)

/-- The per-group computation of `analyze_player_performance`. -/
def playerStatFor (tp : List PlayObs) (key : String × String) : PlayerStat :=
  let g := tp.filter fun o =>
    o.appVersion = some key.1 ∧ o.playerId = some key.2
  let total := g.length
  let won := (g.filter fun o => o.wonTrick).length
  let pts := (g.map fun o => o.trickPoints * (if o.wonTrick then 1 else 0)).sum
  { appVersion := key.1
    playerId := key.2
    total_tricks := total
    tricks_won := won
    total_points_won := pts
    player_win_rate := roundTo 3 ((won : ℚ) / (total : ℚ))
    avg_points_per_trick := roundTo 2 (pts / (total : ℚ)) }

/-- `LocalLogAnalyzer.analyze_player_performance`. -/
def analyze_player_performance (tp : List PlayObs) : List PlayerStat :=
  if tp.isEmpty then []
  else (playerKeys tp).map fun k => playerStatFor tp k

/-- The conditional `final_points` extraction of `analyze_round_efficiency`:
`data.get('finalPoints', 0)` for an `attacking_team_victory` row, else
`data.get('attackingTeamPoints', 0)`. -/
def final_points_of (e : LogEntry) : ℚ :=
  if e.event = some "attacking_team_victory" then e.data.finalPoints.getD 0
  else e.data.attackingTeamPoints.getD 0

/-- The `rounds` frame of `analyze_round_efficiency` after adding the
`final_points` and `attacking_won` columns. -/
structure RoundRow where
  appVersion : Option String
  gameId : Option String
  final_points : ℚ
  attacking_won : Bool

/-- The filtered-and-extended `rounds` frame: the rows whose event is
`attacking_team_victory` or `defending_team_victory`. -/
def roundRows (df : List LogEntry) : List RoundRow :=
  (df.filter fun e =>
      e.event = some "attacking_team_victory" ∨
      e.event = some "defending_team_victory").map fun e =>
    { appVersion := e.appVersion
      gameId := e.gameId
      final_points := final_points_of e
      attacking_won := e.event = some "attacking_team_victory" }

/-- A row of the `RoundEfficiency` view.  The two conditional win-point
averages are optional: when some version has an attacking (resp. defending)
win but this one does not, the left merge leaves a NaN cell, modelled as
`none`. -/
structure RoundEffStat where
  appVersion : String
  total_rounds : ℕ
  avg_final_points : ℚ
  attacking_round_win_rate : ℚ
  avg_attacking_win_points : Option ℚ
  avg_defending_win_points : Option ℚ

/-- The per-version row of `analyze_round_efficiency`:
`total_rounds` is `agg({'gameId': 'count'})`, counting non-null game ids;
`avg_final_points` is the group mean (1 dp);
`attacking_round_win_rate` the mean of the `attacking_won` booleans (3 dp);
`avg_attacking_win_points` is the scalar `0` when there is no attacking win
at all (`else` branch of the source), the per-version mean (1 dp) when this
version has one, and a NaN left-merge miss (`none`) otherwise; dually for
`avg_defending_win_points`. -/
def roundEffFor (rounds : List RoundRow) (v : String) : RoundEffStat :=
  let attacking_wins := rounds.filter fun r => r.attacking_won
  let defending_wins := rounds.filter fun r => ¬ r.attacking_won
  let g := rounds.filter fun r => r.appVersion = some v
  let ga := attacking_wins.filter fun r => r.appVersion = some v
  let gd := defending_wins.filter fun r => r.appVersion = some v
  { appVersion := v
    total_rounds := (g.filterMap fun r => r.gameId).length
    avg_final_points :=
      roundTo 1 ((g.map fun r => r.final_points).sum / (g.length : ℚ))
    attacking_round_win_rate :=
      roundTo 3 (((g.filter fun r => r.attacking_won).length : ℚ) /
        (g.length : ℚ))
    avg_attacking_win_points :=
      if attacking_wins.isEmpty then some 0
      else if ga.isEmpty then none
      else some (roundTo 1 ((ga.map fun r => r.final_points).sum /
        (ga.length : ℚ)))
    avg_defending_win_points :=
      if defending_wins.isEmpty then some 0
      else if gd.isEmpty then none
      else some (roundTo 1 ((gd.map fun r => r.final_points).sum /
        (gd.length : ℚ))) }

/-- `LocalLogAnalyzer.analyze_round_efficiency`: empty round set
short-circuits to an empty frame, otherwise one row per distinct non-null
`appVersion` among the round rows. -/
def analyze_round_efficiency (df : List LogEntry) : List RoundEffStat :=
  let rounds := roundRows df
  if rounds.isEmpty then []
  else ((rounds.filterMap fun r => r.appVersion).dedup).map fun v =>
    roundEffFor rounds v

/-- A row of the `strategic_df` frame built by
`analyze_ai_strategic_effectiveness`: every field read with a `.get`
default. -/
structure AIDecisionRow where
  appVersion : Option String
  player : Option String
  decision_point : Option String
  is_attacking : Bool
  trick_position : String
  point_pressure : String
  has_reasoning : Bool
  decision_score : ℚ
  is_leading : Bool

/-- The per-event row extraction of `analyze_ai_strategic_effectiveness`:
`context = data.get('context', {})`, `is_attacking =
context.get('isAttackingTeam', False)`, `reasoning = data.get('reasoning',
[])`, `score = data.get('score', 0)`, etc. -/
def aiRow (e : LogEntry) : AIDecisionRow :=
  let ctx := e.data.context.getD {}
  { appVersion := e.appVersion
    player := e.data.player
    decision_point := e.data.decisionPoint
    is_attacking := ctx.isAttackingTeam.getD false
    trick_position := ctx.trickPosition.getD "unknown"
    point_pressure := ctx.pointPressure.getD "unknown"
    has_reasoning := ¬ (e.data.reasoning.getD []).isEmpty
    decision_score := e.data.score.getD 0
    is_leading := e.event = some "ai_leading_decision" }

/-- A row of the AI-effectiveness view (only the columns the final report
consumes; the per-position pivot columns added afterwards are never
selected by `generate_final_report` and are not modelled). -/
structure AIEffStat where
  appVersion : String
  avg_decision_score : ℚ
  reasoning_rate : ℚ
  attacking_decision_rate : ℚ
  leading_decision_rate : ℚ
  total_decisions : ℕ

/-- The per-version aggregation of `analyze_ai_strategic_effectiveness`:
means of `decision_score`, `has_reasoning`, `is_attacking`, `is_leading`
(all rounded to 3 dp by the blanket `.round(3)`), and
`agg({'player': 'count'})` counting non-null players. -/
def aiEffFor (rows : List AIDecisionRow) (v : String) : AIEffStat :=
  let g := rows.filter fun r => r.appVersion = some v
  { appVersion := v
    avg_decision_score :=
      roundTo 3 ((g.map fun r => r.decision_score).sum / (g.length : ℚ))
    reasoning_rate :=
      roundTo 3 (((g.filter fun r => r.has_reasoning).length : ℚ) /
        (g.length : ℚ))
    attacking_decision_rate :=
      roundTo 3 (((g.filter fun r => r.is_attacking).length : ℚ) /
        (g.length : ℚ))
    leading_decision_rate :=
      roundTo 3 (((g.filter fun r => r.is_leading).length : ℚ) /
        (g.length : ℚ))
    total_decisions := (g.filterMap fun r => r.player).length }

/-- `LocalLogAnalyzer.analyze_ai_strategic_effectiveness`. -/
def analyze_ai_strategic_effectiveness (df : List LogEntry) :
    List AIEffStat :=
  let ai_events := df.filter fun e =>
    e.event = some "ai_leading_decision" ∨
    e.event = some "ai_following_decision"
  if ai_events.isEmpty then []
  else
    let rows := ai_events.map aiRow
    ((rows.filterMap fun r => r.appVersion).dedup).map fun v =>
      aiEffFor rows v

/-- A row of the `EfficiencyStats` (kitty) view. -/
structure KittyStat where
  appVersion : String
  avg_kitty_points : ℚ
  kitty_events : ℕ

/-- `LocalLogAnalyzer.analyze_efficiency_stats`: mean of
`data.get('kittyPoints', 0)` (2 dp) and `agg({'gameId': 'count'})` per
version. -/
def analyze_efficiency_stats (df : List LogEntry) : List KittyStat :=
  let kitty_events := df.filter fun e => e.event = some "kitty_pickup"
  if kitty_events.isEmpty then []
  else ((kitty_events.filterMap fun e => e.appVersion).dedup).map fun v =>
    let g := kitty_events.filter fun e => e.appVersion = some v
    { appVersion := v
      avg_kitty_points :=
        roundTo 2 ((g.map fun e => e.data.kittyPoints.getD 0).sum /
          (g.length : ℚ))
      kitty_events := (g.filterMap fun e => e.gameId).length }

/-- One output row of `generate_final_report`.  Every column that can miss
its left join (or whose source view/column can be absent altogether) is
optional; a pandas NaN cell and an absent column are both `none`. -/
structure KPIRow where
  appVersion : Option String
  total_games : ℕ
  attacking_team_win_rate : Option ℚ
  defending_team_win_rate : Option ℚ
  total_rounds : Option ℕ
  avg_final_points : Option ℚ
  attacking_round_win_rate : Option ℚ
  avg_attacking_win_points : Option ℚ
  avg_defending_win_points : Option ℚ
  avg_rounds_per_game : Option ℚ
  position_1_win_rate : Option ℚ
  position_2_win_rate : Option ℚ
  position_3_win_rate : Option ℚ
  position_4_win_rate : Option ℚ
  position_1_avg_points : Option ℚ
  position_2_avg_points : Option ℚ
  position_3_avg_points : Option ℚ
  position_4_avg_points : Option ℚ
  position_1_points_per_round : Option ℚ
  position_2_points_per_round : Option ℚ
  position_3_points_per_round : Option ℚ
  position_4_points_per_round : Option ℚ
  avg_kitty_points : Option ℚ
  avg_decision_score : Option ℚ
  reasoning_rate : Option ℚ
  attacking_decision_rate : Option ℚ

/-- The `final_report['appVersion'].map(position_pivot[(metric, pos)])`
lookup: null when the pivot has no row for this version/position (also
covering the case where the whole pivot column is absent, i.e. no
observation at this position at all — then the lookup misses for every
version). -/
def posLookup (ps : List PositionStat) (v : Option String) (pos : ℕ)
    (f : PositionStat → ℚ) : Option ℚ :=
  (ps.find? fun s => some s.appVersion = v ∧ s.trickPosition = pos).map f

/-- `LocalLogAnalyzer.generate_final_report` minus I/O: start from the
game-stats rows, left-join each secondary view on `appVersion` (each view
has at most one row per version, so a pandas left merge is a `find?`
lookup; a missing view and a missed match both leave nulls), and derive
`avg_rounds_per_game = total_rounds / total_games` (1 dp), only when round
efficiency is present. -/
def generate_final_report (df : List LogEntry) : List KPIRow :=
  let game_stats := analyze_game_stats df
  let team_roles := analyze_team_roles df
  let trick_positions := analyze_trick_performance df
  let position_stats := analyze_position_stats trick_positions
  let round_efficiency := analyze_round_efficiency df
  let ai_strategic := analyze_ai_strategic_effectiveness df
  let efficiency_stats := analyze_efficiency_stats df
  game_stats.map fun gs =>
    let tr := team_roles.find? fun t => some t.appVersion = gs.appVersion
    let re := round_efficiency.find? fun r => some r.appVersion = gs.appVersion
    let ks := efficiency_stats.find? fun k => some k.appVersion = gs.appVersion
    let ai := ai_strategic.find? fun a => some a.appVersion = gs.appVersion
    { appVersion := gs.appVersion
      total_games := gs.total_games
      attacking_team_win_rate := tr.map fun t => t.attacking_team_win_rate
      defending_team_win_rate := tr.map fun t => t.defending_team_win_rate
      total_rounds := re.map fun r => r.total_rounds
      avg_final_points := re.map fun r => r.avg_final_points
      attacking_round_win_rate := re.map fun r => r.attacking_round_win_rate
      avg_attacking_win_points := re.bind fun r => r.avg_attacking_win_points
      avg_defending_win_points := re.bind fun r => r.avg_defending_win_points
      avg_rounds_per_game := re.map fun r =>
        roundTo 1 ((r.total_rounds : ℚ) / (gs.total_games : ℚ))
      position_1_win_rate :=
        posLookup position_stats gs.appVersion 1 fun s => s.position_win_rate
      position_2_win_rate :=
        posLookup position_stats gs.appVersion 2 fun s => s.position_win_rate
      position_3_win_rate :=
        posLookup position_stats gs.appVersion 3 fun s => s.position_win_rate
      position_4_win_rate :=
        posLookup position_stats gs.appVersion 4 fun s => s.position_win_rate
      position_1_avg_points :=
        posLookup position_stats gs.appVersion 1 fun s => s.avg_points_when_winning
      position_2_avg_points :=
        posLookup position_stats gs.appVersion 2 fun s => s.avg_points_when_winning
      position_3_avg_points :=
        posLookup position_stats gs.appVersion 3 fun s => s.avg_points_when_winning
      position_4_avg_points :=
        posLookup position_stats gs.appVersion 4 fun s => s.avg_points_when_winning
      position_1_points_per_round :=
        posLookup position_stats gs.appVersion 1 fun s => s.avg_points_per_round
      position_2_points_per_round :=
        posLookup position_stats gs.appVersion 2 fun s => s.avg_points_per_round
      position_3_points_per_round :=
        posLookup position_stats gs.appVersion 3 fun s => s.avg_points_per_round
      position_4_points_per_round :=
        posLookup position_stats gs.appVersion 4 fun s => s.avg_points_per_round
      avg_kitty_points := ks.map fun k => k.avg_kitty_points
      avg_decision_score := ai.map fun a => a.avg_decision_score
      reasoning_rate := ai.map fun a => a.reasoning_rate
      attacking_decision_rate := ai.map fun a => a.attacking_decision_rate }

/-! ## Shared lemmas -/

theorem length_filterMap_eq_countP {α β : Type} (f : α → Option β)
    (l : List α) :
    (l.filterMap f).length = l.countP fun a => (f a).isSome := by
  induction l with
  | nil => rfl
  | cons a l ih =>
    cases h : f a <;>
      simp [List.filterMap_cons, h, List.countP_cons, ih]

theorem union_eq_right_of_subset {α : Type} [DecidableEq α]
    {l1 l2 : List α} (h : ∀ x ∈ l1, x ∈ l2) : l1 ∪ l2 = l2 := by
  induction l1 with
  | nil => simp
  | cons a l ih =>
    rw [List.cons_union, ih fun x hx => h x (List.mem_cons_of_mem a hx)]
    exact List.insert_of_mem (h a (List.mem_cons_self a l))

theorem dedup_append_self {α : Type} [DecidableEq α] (l : List α) :
    (l ++ l).dedup = l.dedup := by
  rw [List.dedup_append]
  exact union_eq_right_of_subset fun x hx => List.mem_dedup.mpr hx

theorem floor_add_one_le {q : ℚ} {n : ℤ} (h : q ≤ n)
    (hf : Int.fract q ≠ 0) : ⌊q⌋ + 1 ≤ n := by
  have hfl : ⌊q⌋ ≤ n := by
    have h2 := Int.floor_le_floor h
    simpa using h2
  rcases lt_or_eq_of_le hfl with hlt | heq
  · omega
  · exfalso
    apply hf
    have h1 : (n : ℚ) ≤ q := by
      rw [← heq]; exact Int.floor_le q
    have h3 : q = (n : ℚ) := le_antisymm h h1
    rw [h3, Int.fract_intCast]

theorem rnd_le_of_le {q : ℚ} {n : ℤ} (h : q ≤ n) : rnd q ≤ n := by
  have hfl : ⌊q⌋ ≤ n := by
    have h2 := Int.floor_le_floor h
    simpa using h2
  unfold rnd
  split
  · exact hfl
  · rename_i h1
    push_neg at h1
    have hf : Int.fract q ≠ 0 := by
      intro h0
      rw [h0] at h1
      norm_num at h1
    split
    · exact floor_add_one_le h hf
    · split
      · exact hfl
      · exact floor_add_one_le h hf

theorem rnd_nonneg {q : ℚ} (h : 0 ≤ q) : 0 ≤ rnd q := by
  have hfl : 0 ≤ ⌊q⌋ := Int.floor_nonneg.mpr h
  unfold rnd
  split
  · exact hfl
  · split
    · omega
    · split
      · exact hfl
      · omega

theorem roundTo_nonneg (d : ℕ) {q : ℚ} (h : 0 ≤ q) : 0 ≤ roundTo d q := by
  unfold roundTo
  apply div_nonneg _ (by positivity)
  have h1 : (0 : ℤ) ≤ rnd (q * 10 ^ d) :=
    rnd_nonneg (by positivity)
  exact_mod_cast h1

theorem roundTo_le_one (d : ℕ) {q : ℚ} (h : q ≤ 1) : roundTo d q ≤ 1 := by
  unfold roundTo
  rw [div_le_one (by positivity)]
  have h1 : q * 10 ^ d ≤ ((10 ^ d : ℤ) : ℚ) := by
    push_cast
    calc q * 10 ^ d ≤ 1 * 10 ^ d := by
          apply mul_le_mul_of_nonneg_right h (by positivity)
      _ = 10 ^ d := one_mul _
  have h2 : rnd (q * 10 ^ d) ≤ (10 ^ d : ℤ) := rnd_le_of_le h1
  calc ((rnd (q * 10 ^ d) : ℤ) : ℚ) ≤ ((10 ^ d : ℤ) : ℚ) := by exact_mod_cast h2
    _ = 10 ^ d := by push_cast; ring

/-- A ratio of a filtered length over the full length is in `[0, 1]` once
the list is nonempty. -/
theorem filter_ratio_mem_unit {α : Type} (p : α → Bool) {l : List α}
    (h : l ≠ []) :
    0 ≤ ((l.filter p).length : ℚ) / (l.length : ℚ) ∧
      ((l.filter p).length : ℚ) / (l.length : ℚ) ≤ 1 := by
  have hlen : 0 < l.length := List.length_pos.mpr h
  have hq : (0 : ℚ) < (l.length : ℚ) := by exact_mod_cast hlen
  constructor
  · apply div_nonneg _ (le_of_lt hq)
    positivity
  · rw [div_le_one hq]
    exact_mod_cast List.length_filter_le p l

/-! ## C2 — the Event Reader emits exactly the decodable lines -/

/-- C2: for any decoder and any input stream, the reader emits exactly as
many entries as there are decodable lines; an entry is emitted exactly when
some line decodes to it, so undecodable lines are skipped silently (no
abort, no partial record) and contribute nothing downstream. -/
theorem C2_reader_emits_exactly_valid_lines
    (decode : String → Option LogEntry) (lines : List String) :
    (load_logs decode lines).length =
      (lines.countP fun l => (decode l).isSome) ∧
    ∀ e : LogEntry,
      e ∈ load_logs decode lines ↔ ∃ l ∈ lines, decode l = some e := by
  refine ⟨length_filterMap_eq_countP decode lines, fun e => ?_⟩
  simp [load_logs, List.mem_filterMap]

/-! ## C8 — the reader does not validate `event` / `timestamp` presence -/

/-- A decoder for concrete inputs: `json.loads "\x7b\x7d"` (the empty JSON
object) succeeds and returns an object with no keys, which decodes to the
entry with every field absent; every other line fails to decode. -/
def decodeEmptyObjOnly (s : String) : Option LogEntry :=
  if s = "\x7b\x7d" then some {} else none

/-- C8 is false on the code: `load_logs` appends every successfully decoded
object without looking at its fields, so the entry decoded from the line
`"\x7b\x7d"` — which has neither an `event` kind nor a `timestamp` — is
emitted downstream. -/
theorem C8_counterexample :
    ∃ e ∈ load_logs decodeEmptyObjOnly ["\x7b\x7d"],
      e.event = none ∧ e.timestamp = none := by
  refine ⟨{}, ?_, rfl, rfl⟩
  simp [load_logs, decodeEmptyObjOnly]

/-- C8 (amended): the reader's only filter is decode success; it performs
no field-presence validation, so every successfully decoded record is
emitted even when it lacks `event` (the wire name of `eventKind`) or
`timestamp`. -/
theorem C8_reader_keeps_fieldless_entries
    (decode : String → Option LogEntry) (lines : List String) (e : LogEntry)
    (h : ∃ l ∈ lines, decode l = some e) :
    e ∈ load_logs decode lines := by
  obtain ⟨l, hl, hd⟩ := h
  exact List.mem_filterMap.mpr ⟨l, hl, hd⟩

theorem C8_reader_keeps_fieldless_entries_witness :
    ({} : LogEntry) ∈ load_logs decodeEmptyObjOnly ["\x7b\x7d"] :=
  C8_reader_keeps_fieldless_entries decodeEmptyObjOnly ["\x7b\x7d"] {}
    ⟨"\x7b\x7d", by simp, by simp [decodeEmptyObjOnly]⟩

/-! ## C3 — the Trick Flattener -/

theorem flattenTrick_length (r : LogEntry) :
    (flattenTrick r).length = (r.data.allPlays.getD []).length := by
  simp only [flattenTrick]
  split
  · rename_i h
    rw [List.isEmpty_iff.mp h]
    rfl
  · rw [List.length_map, List.enum_length]

/-- C3: the flattener emits `sum (len plays)` observations over all
`trick_completed` rows; a trick with empty or absent `plays` yields zero
observations; per trick, seat positions are `index + 1` in play-list
order and `wonTrick` is exactly `playerId == winningPlayer`. -/
theorem C3_flattener_shape (df : List LogEntry) :
    (analyze_trick_performance df).length =
      (((df.filter fun e => e.event = some "trick_completed").map
        fun r => (r.data.allPlays.getD []).length).sum) ∧
    (∀ r : LogEntry,
      (flattenTrick r).map (fun o => o.trickPosition) =
        (List.range (r.data.allPlays.getD []).length).map (· + 1)) ∧
    (∀ r : LogEntry,
      (flattenTrick r).map (fun o => (o.playerId, o.wonTrick)) =
        (r.data.allPlays.getD []).map fun p =>
          (p.playerId, decide (p.playerId = r.data.winningPlayer))) ∧
    (∀ r : LogEntry, r.data.allPlays.getD [] = [] → flattenTrick r = []) := by
  refine ⟨?_, ?_, ?_, ?_⟩
  · unfold analyze_trick_performance
    rw [List.length_flatMap]
    congr 1
    apply List.map_congr_left
    intro r _
    exact flattenTrick_length r
  · intro r
    simp only [flattenTrick]
    split
    · rename_i h
      rw [List.isEmpty_iff.mp h]
      rfl
    · rw [List.map_map, ← List.enum_map_fst (r.data.allPlays.getD []),
        List.map_map]
      rfl
  · intro r
    simp only [flattenTrick]
    split
    · rename_i h
      rw [List.isEmpty_iff.mp h]
      rfl
    · conv_rhs => rw [← List.enum_map_snd (r.data.allPlays.getD [])]
      rw [List.map_map, List.map_map]
      rfl
  · intro r h
    simp only [flattenTrick]
    rw [h]
    rfl

theorem C3_flattener_shape_witness :
    (LogEntry.data { event := some "trick_completed" }).allPlays.getD [] =
        [] ∧
      flattenTrick { event := some "trick_completed" } = [] :=
  ⟨rfl, (C3_flattener_shape []).2.2.2 { event := some "trick_completed" } rfl⟩

/-! ## C4 — "exactly one winner per trick" fails without a warning -/

/-- A syntactically well-formed trick whose `winningPlayer` matches none of
its plays. -/
def trickNoWinnerMatch : LogEntry :=
  { event := some "trick_completed"
    appVersion := some "v1"
    gameId := some "g1"
    data :=
      { winningPlayer := some "X"
        trickPoints := some 5
        allPlays := some [{ playerId := some "A" },
                          { playerId := some "B" }] } }

/-- C4 is false on the code: for a trick whose `winningPlayer` matches no
play, the flattener emits both observations with `wonTrick = false` — zero
winners, not exactly one — and no warning of any kind is produced (the
source has no warning path at all; the observations are returned as-is). -/
theorem C4_counterexample :
    ((flattenTrick trickNoWinnerMatch).filter fun o => o.wonTrick).length
        = 0 ∧
      (flattenTrick trickNoWinnerMatch).length = 2 := by
  constructor <;> rfl

/-- C4 (amended): per trick the number of observations with
`wonTrick = true` equals the number of plays whose `playerId` equals
`winningPlayer` — exactly one only when the input provides exactly one
matching play; a violating trick is flattened unchanged, with no warning
and no correction (the flattener has no reporting mechanism). -/
theorem C4_won_count_matches_plays (r : LogEntry) :
    ((flattenTrick r).filter fun o => o.wonTrick).length =
      ((r.data.allPlays.getD []).filter fun p =>
        p.playerId = r.data.winningPlayer).length := by
  rw [← List.countP_eq_length_filter, ← List.countP_eq_length_filter]
  simp only [flattenTrick]
  split
  · rename_i h
    rw [List.isEmpty_iff.mp h]
    rfl
  · rw [List.countP_map]
    conv_rhs => rw [← List.enum_map_snd (r.data.allPlays.getD [])]
    rw [List.countP_map]
    rfl

/-! ## C1 — rate bounds and the zero-denominator policy -/

theorem roundTo_zero (d : ℕ) : roundTo d 0 = 0 := by
  simp [roundTo, rnd, Int.fract_zero]

theorem positionKeys_group_ne_nil {tp : List PlayObs} {k : String × ℕ}
    (hk : k ∈ positionKeys tp) :
    tp.filter (fun o =>
      o.appVersion = some k.1 ∧ o.trickPosition = k.2) ≠ [] := by
  rw [positionKeys, List.mem_dedup, List.mem_filterMap] at hk
  obtain ⟨o, ho, hmap⟩ := hk
  rw [Option.map_eq_some'] at hmap
  obtain ⟨v, hv, hpair⟩ := hmap
  intro hnil
  have hmem : o ∈ tp.filter (fun o =>
      o.appVersion = some k.1 ∧ o.trickPosition = k.2) := by
    rw [List.mem_filter]
    refine ⟨ho, ?_⟩
    simp only [decide_eq_true_eq]
    rw [← hpair]
    exact ⟨hv, rfl⟩
  rw [hnil] at hmem
  exact absurd hmem (List.not_mem_nil o)

theorem roundRows_group_ne_nil {rounds : List RoundRow} {v : String}
    (hv : v ∈ (rounds.filterMap fun r => r.appVersion).dedup) :
    rounds.filter (fun r => r.appVersion = some v) ≠ [] := by
  rw [List.mem_dedup, List.mem_filterMap] at hv
  obtain ⟨r, hr, hsome⟩ := hv
  intro hnil
  have hmem : r ∈ rounds.filter (fun r => r.appVersion = some v) := by
    rw [List.mem_filter]
    exact ⟨hr, by simp [hsome]⟩
  rw [hnil] at hmem
  exact absurd hmem (List.not_mem_nil r)

/-- C1 (amended): every win-rate metric of the position and round views is
a numeric value in `[0, 1]` computed over a nonempty group (its denominator
is never zero), but a ratio whose denominator is zero is emitted as the
number `0`, not as null: `avg_points_when_winning` divides by `1` in place
of a zero win count and yields `0`, and the conditional win-point averages
are set to the scalar `0` when no round of the respective kind exists. -/
theorem C1_rate_bounds_and_zero_denominators :
    (∀ tp : List PlayObs, ∀ s ∈ analyze_position_stats tp,
      0 ≤ s.position_win_rate ∧ s.position_win_rate ≤ 1 ∧
      0 < s.total_tricks_at_position ∧
      (s.tricks_won_at_position = 0 → s.avg_points_when_winning = 0)) ∧
    (∀ df : List LogEntry, ∀ r ∈ analyze_round_efficiency df,
      0 ≤ r.attacking_round_win_rate ∧ r.attacking_round_win_rate ≤ 1 ∧
      (((roundRows df).filter fun x => x.attacking_won) = [] →
        r.avg_attacking_win_points = some 0) ∧
      (((roundRows df).filter fun x => ¬ x.attacking_won) = [] →
        r.avg_defending_win_points = some 0)) := by
  constructor
  · intro tp s hs
    rw [analyze_position_stats] at hs
    split at hs
    · exact absurd hs (List.not_mem_nil s)
    · rw [List.mem_map] at hs
      obtain ⟨k, hk, rfl⟩ := hs
      have hg := positionKeys_group_ne_nil hk
      have hbounds := filter_ratio_mem_unit (fun o => o.wonTrick) hg
      refine ⟨?_, ?_, ?_, ?_⟩
      · exact roundTo_nonneg 3 hbounds.1
      · exact roundTo_le_one 3 hbounds.2
      · simpa [positionStatFor, List.length_pos] using hg
      · intro hwon
        simp only [positionStatFor] at hwon ⊢
        have hz : ((tp.filter fun o =>
            o.appVersion = some k.1 ∧ o.trickPosition = k.2).map
              fun o => o.trickPoints * (if o.wonTrick then 1 else 0)).sum
              = 0 := by
          apply List.sum_eq_zero
          intro x hx
          rw [List.mem_map] at hx
          obtain ⟨o, ho, rfl⟩ := hx
          have hfalse : o.wonTrick = false := by
            by_contra hc
            have htrue : o.wonTrick = true := by
              cases h : o.wonTrick
              · exact absurd h hc
              · rfl
            have : o ∈ (tp.filter fun o =>
                o.appVersion = some k.1 ∧ o.trickPosition = k.2).filter
                  fun o => o.wonTrick :=
              List.mem_filter.mpr ⟨ho, htrue⟩
            rw [List.length_eq_zero.mp hwon] at this
            exact absurd this (List.not_mem_nil o)
          rw [hfalse]
          norm_num
        rw [hwon, hz]
        norm_num [roundTo_zero]
  · intro df r hr
    rw [analyze_round_efficiency] at hr
    split at hr
    · exact absurd hr (List.not_mem_nil r)
    · rw [List.mem_map] at hr
      obtain ⟨v, hv, rfl⟩ := hr
      have hg := roundRows_group_ne_nil hv
      have hbounds := filter_ratio_mem_unit (fun x => x.attacking_won) hg
      refine ⟨roundTo_nonneg 3 hbounds.1, roundTo_le_one 3 hbounds.2,
        fun he => ?_, fun he => ?_⟩
      · simp only [roundEffFor, he]
        rfl
      · simp only [roundEffFor, he]
        rfl

/-- A single completed trick: `P1` wins it, `P2` never wins at seat 2. -/
def dfPosZero : List LogEntry :=
  [{ event := some "trick_completed"
     appVersion := some "v1"
     gameId := some "g1"
     data :=
       { winningPlayer := some "P1"
         trickPoints := some 10
         allPlays := some [{ playerId := some "P1" },
                           { playerId := some "P2" }] }}]

/-- C1 is false on the code as stated: on `dfPosZero`, seat position 2 has
zero winning tricks — the denominator of `avg_points_when_winning` is zero
— yet the emitted value is the number `0` (the source divides by
`.replace(0, 1)`), not a null/missing cell. -/
theorem C1_counterexample :
    ∃ s ∈ analyze_position_stats (analyze_trick_performance dfPosZero),
      s.tricks_won_at_position = 0 ∧ s.avg_points_when_winning = 0 := by
  refine ⟨positionStatFor (analyze_trick_performance dfPosZero) ("v1", 2),
    ?_, ?_, ?_⟩
  · rw [analyze_position_stats]
    split
    · rename_i h
      rw [show analyze_trick_performance dfPosZero =
          analyze_trick_performance dfPosZero from rfl] at h
      exact absurd h (by decide)
    · exact List.mem_map_of_mem _ (by decide)
  · decide
  · have htp : analyze_trick_performance dfPosZero =
        [{ appVersion := some "v1", gameId := some "g1",
           winningPlayer := some "P1", trickPoints := 10,
           playerId := some "P1", trickPosition := 1, wonTrick := true },
         { appVersion := some "v1", gameId := some "g1",
           winningPlayer := some "P1", trickPoints := 10,
           playerId := some "P2", trickPosition := 2, wonTrick := false }] :=
      rfl
    rw [htp]
    norm_num [positionStatFor, roundTo_zero]

theorem C1_rate_bounds_witness :
    0 ≤ (positionStatFor (analyze_trick_performance dfPosZero)
        ("v1", 2)).position_win_rate ∧
      (positionStatFor (analyze_trick_performance dfPosZero)
        ("v1", 2)).position_win_rate ≤ 1 :=
  have h := (C1_rate_bounds_and_zero_denominators.1
    (analyze_trick_performance dfPosZero)
    (positionStatFor (analyze_trick_performance dfPosZero) ("v1", 2))
    (by rw [analyze_position_stats]; split
        · rename_i h; exact absurd h (by decide)
        · exact List.mem_map_of_mem _ (by decide)))
  ⟨h.1, h.2.1⟩

/-! ## C5 — round-efficiency sourcing and the worked example -/

/-- One `attacking_team_victory` round with `finalPoints = 95`. -/
def roundExampleA : LogEntry :=
  { event := some "attacking_team_victory"
    appVersion := some "v1"
    gameId := some "g1"
    data := { finalPoints := some 95 } }

/-- One `defending_team_victory` round with `attackingTeamPoints = 40`. -/
def roundExampleD : LogEntry :=
  { event := some "defending_team_victory"
    appVersion := some "v1"
    gameId := some "g2"
    data := { attackingTeamPoints := some 40 } }

def dfRoundExample : List LogEntry := [roundExampleA, roundExampleD]

/-- C5: `final_points` is sourced from `finalPoints` for attacking
victories and from `attackingTeamPoints` for defending victories, and on
the spec's example input the view yields `total_rounds = 2`,
`avg_final_points = 67.5`, `attacking_round_win_rate = 0.5`,
`avg_attacking_win_points = 95.0`, `avg_defending_win_points = 40.0`. -/
theorem C5_round_efficiency_sourcing :
    (∀ e : LogEntry, e.event = some "attacking_team_victory" →
      final_points_of e = e.data.finalPoints.getD 0) ∧
    (∀ e : LogEntry, e.event = some "defending_team_victory" →
      final_points_of e = e.data.attackingTeamPoints.getD 0) ∧
    analyze_round_efficiency dfRoundExample =
      [{ appVersion := "v1"
         total_rounds := 2
         avg_final_points := 135 / 2
         attacking_round_win_rate := 1 / 2
         avg_attacking_win_points := some 95
         avg_defending_win_points := some 40 }] := by
  refine ⟨fun e h => by simp [final_points_of, h],
    fun e h => by simp [final_points_of, h], ?_⟩
  have hr : roundRows dfRoundExample =
      [{ appVersion := some "v1", gameId := some "g1", final_points := 95,
         attacking_won := true },
       { appVersion := some "v1", gameId := some "g2", final_points := 40,
         attacking_won := false }] := rfl
  have hkeys : (List.filterMap (fun r => r.appVersion)
      ([{ appVersion := some "v1", gameId := some "g1", final_points := 95,
          attacking_won := true },
        { appVersion := some "v1", gameId := some "g2", final_points := 40,
          attacking_won := false }] : List RoundRow)).dedup = ["v1"] := by
    decide
  have hstat : roundEffFor
      [{ appVersion := some "v1", gameId := some "g1", final_points := 95,
         attacking_won := true },
       { appVersion := some "v1", gameId := some "g2", final_points := 40,
         attacking_won := false }] "v1" =
      { appVersion := "v1"
        total_rounds := 2
        avg_final_points := 135 / 2
        attacking_round_win_rate := 1 / 2
        avg_attacking_win_points := some 95
        avg_defending_win_points := some 40 } := by
    simp only [roundEffFor]
    norm_num [roundTo, rnd]
    decide
  rw [analyze_round_efficiency, hr]
  norm_num [hkeys, hstat]

theorem C5_round_efficiency_sourcing_witness :
    final_points_of roundExampleA =
        roundExampleA.data.finalPoints.getD 0 ∧
      final_points_of roundExampleD =
        roundExampleD.data.attackingTeamPoints.getD 0 :=
  ⟨C5_round_efficiency_sourcing.1 roundExampleA rfl,
    C5_round_efficiency_sourcing.2.1 roundExampleD rfl⟩

/-! ## C9 — missing numeric sub-fields are defaulted, not null -/

/-- The AI decision events of one build version (the group a row of the
AI-effectiveness view aggregates over). -/
def aiEventsOf (df : List LogEntry) (v : String) : List LogEntry :=
  (df.filter fun e =>
    e.event = some "ai_leading_decision" ∨
    e.event = some "ai_following_decision").filter
      fun e => e.appVersion = some v

/-- An AI decision with an explicit score of `10`. -/
def aiWithScore : LogEntry :=
  { event := some "ai_leading_decision"
    appVersion := some "v1"
    data := { player := some "P1", score := some 10 } }

/-- An AI decision whose payload has no `score` sub-field at all. -/
def aiNoScore : LogEntry :=
  { event := some "ai_following_decision"
    appVersion := some "v1"
    data := { player := some "P2" } }

def dfAiExample : List LogEntry := [aiWithScore, aiNoScore]

/-- C9 is false on the code: given one decision with `score = 10` and one
whose payload lacks `score`, the view reports `avg_decision_score = 5` —
the missing score was substituted by the default `0` and averaged in
(`data.get('score', 0)`), not treated as a null contribution (which would
leave the mean of the present values, `10`). -/
theorem C9_counterexample :
    analyze_ai_strategic_effectiveness dfAiExample =
      [{ appVersion := "v1"
         avg_decision_score := 5
         reasoning_rate := 0
         attacking_decision_rate := 0
         leading_decision_rate := 1 / 2
         total_decisions := 2 }] ∧
      (5 : ℚ) ≠ 10 := by
  refine ⟨?_, by norm_num⟩
  have hai : (dfAiExample.filter fun e =>
      e.event = some "ai_leading_decision" ∨
      e.event = some "ai_following_decision") = [aiWithScore, aiNoScore] :=
    rfl
  have hrows : ([aiWithScore, aiNoScore].map aiRow) =
      [{ appVersion := some "v1", player := some "P1",
         decision_point := none, is_attacking := false,
         trick_position := "unknown", point_pressure := "unknown",
         has_reasoning := false, decision_score := 10, is_leading := true },
       { appVersion := some "v1", player := some "P2",
         decision_point := none, is_attacking := false,
         trick_position := "unknown", point_pressure := "unknown",
         has_reasoning := false, decision_score := 0,
         is_leading := false }] :=
    rfl
  have hkeys : (List.filterMap (fun r => r.appVersion)
      ([{ appVersion := some "v1", player := some "P1",
          decision_point := none, is_attacking := false,
          trick_position := "unknown", point_pressure := "unknown",
          has_reasoning := false, decision_score := 10, is_leading := true },
        { appVersion := some "v1", player := some "P2",
          decision_point := none, is_attacking := false,
          trick_position := "unknown", point_pressure := "unknown",
          has_reasoning := false, decision_score := 0,
          is_leading := false }] : List AIDecisionRow)).dedup = ["v1"] := by
    decide
  have hstat : aiEffFor
      [{ appVersion := some "v1", player := some "P1",
         decision_point := none, is_attacking := false,
         trick_position := "unknown", point_pressure := "unknown",
         has_reasoning := false, decision_score := 10, is_leading := true },
       { appVersion := some "v1", player := some "P2",
         decision_point := none, is_attacking := false,
         trick_position := "unknown", point_pressure := "unknown",
         has_reasoning := false, decision_score := 0,
         is_leading := false }] "v1" =
      { appVersion := "v1"
        avg_decision_score := 5
        reasoning_rate := 0
        attacking_decision_rate := 0
        leading_decision_rate := 1 / 2
        total_decisions := 2 } := by
    simp only [aiEffFor]
    norm_num [roundTo, rnd, roundTo_zero]
    decide
  rw [analyze_ai_strategic_effectiveness, hai, hrows]
  norm_num [hkeys, hstat]

/-- C9 (amended): a payload lacking an expected numeric sub-field is given
that field's default (`score` → `0`) and the default is aggregated like any
other value; the record is still counted in the group (the mean's
denominator is the full group size), and no absence is a fatal error.  In
particular `avg_decision_score` averages `score.getD 0` over all decision
events of the version, and `total_decisions` counts the events whose
`player` field is present. -/
theorem C9_defaults_substituted (df : List LogEntry) (a : AIEffStat)
    (ha : a ∈ analyze_ai_strategic_effectiveness df) :
    aiEventsOf df a.appVersion ≠ [] ∧
    a.avg_decision_score = roundTo 3
      (((aiEventsOf df a.appVersion).map fun e => e.data.score.getD 0).sum /
        ((aiEventsOf df a.appVersion).length : ℚ)) ∧
    a.total_decisions =
      ((aiEventsOf df a.appVersion).filterMap fun e => e.data.player).length := by
  rw [analyze_ai_strategic_effectiveness] at ha
  split at ha
  · exact absurd ha (List.not_mem_nil a)
  · rw [List.mem_map] at ha
    obtain ⟨v, hv, rfl⟩ := ha
    have happ : (aiEffFor ((df.filter fun e =>
        e.event = some "ai_leading_decision" ∨
        e.event = some "ai_following_decision").map aiRow) v).appVersion
          = v := rfl
    rw [happ]
    have hfm : (((df.filter fun e =>
          e.event = some "ai_leading_decision" ∨
          e.event = some "ai_following_decision").map aiRow).filter
            fun r => r.appVersion = some v) =
        (aiEventsOf df v).map aiRow := by
      rw [aiEventsOf, List.filter_map]
      rfl
    refine ⟨?_, ?_, ?_⟩
    · rw [List.mem_dedup, List.mem_filterMap] at hv
      obtain ⟨r, hr, hsome⟩ := hv
      rw [List.mem_map] at hr
      obtain ⟨e, he, rfl⟩ := hr
      intro hnil
      have hmem : e ∈ aiEventsOf df v := by
        rw [aiEventsOf, List.mem_filter]
        exact ⟨he, by simpa [aiRow] using hsome⟩
      rw [hnil] at hmem
      exact absurd hmem (List.not_mem_nil e)
    · simp only [aiEffFor, hfm, List.map_map, List.length_map]
      rfl
    · simp only [aiEffFor, hfm, List.filterMap_map]
      rfl

set_option maxHeartbeats 1000000 in
theorem C9_defaults_substituted_witness :
    aiEventsOf dfAiExample
        (aiEffFor ((dfAiExample.filter fun e =>
          e.event = some "ai_leading_decision" ∨
          e.event = some "ai_following_decision").map aiRow)
          "v1").appVersion ≠ [] := by
  have hmem : (aiEffFor ((dfAiExample.filter fun e =>
      e.event = some "ai_leading_decision" ∨
      e.event = some "ai_following_decision").map aiRow) "v1")
        ∈ analyze_ai_strategic_effectiveness dfAiExample := by
    simp only [analyze_ai_strategic_effectiveness]
    rw [if_neg (by decide)]
    exact List.mem_map_of_mem _ (by decide)
  exact (C9_defaults_substituted dfAiExample _ hmem).1

/-! ## C10 — team win rates inner-join away orphan game_over events -/

/-- C10: a game id `g` with no `game_initialized` event never reaches the
team-role view: no merged row carries it (so it contributes to neither win
rate nor their denominator, which are computed from merged rows only) —
indeed deleting its `game_over` events leaves the team-role view unchanged
— while any `game_over` event carrying `g` still contributes it to the
distinct count behind `total_games` of its version's Game-counts row. -/
theorem C10_orphan_game_over (df : List LogEntry) (g : String)
    (hno : ∀ e ∈ df, e.event = some "game_initialized" →
      e.gameId ≠ some g) :
    (∀ m ∈ analyze_team_roles_merged df, m.gameId ≠ some g) ∧
    (∀ e ∈ df, e.event = some "game_over" → e.gameId = some g →
      g ∈ distinctGames df e.appVersion ∧
      ∃ gs ∈ analyze_game_stats df, gs.appVersion = e.appVersion) ∧
    analyze_team_roles (df.filter fun e =>
        ¬ (e.event = some "game_over" ∧ e.gameId = some g)) =
      analyze_team_roles df := by
  refine ⟨?_, ?_, ?_⟩
  · intro m hm
    rw [analyze_team_roles_merged, List.mem_flatMap] at hm
    obtain ⟨i, hi, hmem⟩ := hm
    rw [List.mem_map] at hmem
    obtain ⟨o, ho, rfl⟩ := hmem
    rw [List.mem_filter] at hi
    exact hno i hi.1 (by simpa using hi.2)
  · intro e he hev hid
    constructor
    · rw [distinctGames, List.mem_dedup, List.mem_filterMap]
      exact ⟨e, List.mem_filter.mpr ⟨he, by simp [hev]⟩, hid⟩
    · refine ⟨{ appVersion := e.appVersion
                total_games := (distinctGames df e.appVersion).length },
        ?_, rfl⟩
      rw [analyze_game_stats]
      apply List.mem_map_of_mem
      rw [List.mem_dedup, List.mem_map]
      exact ⟨e, List.mem_filter.mpr ⟨he, by simp [hev]⟩, rfl⟩
  · have hmerged : analyze_team_roles_merged (df.filter fun e =>
        ¬ (e.event = some "game_over" ∧ e.gameId = some g)) =
        analyze_team_roles_merged df := by
      simp only [analyze_team_roles_merged, List.filter_filter]
      have hinit : (df.filter fun e =>
          decide (e.event = some "game_initialized") &&
          decide (¬ (e.event = some "game_over" ∧ e.gameId = some g))) =
          df.filter fun e => e.event = some "game_initialized" := by
        apply List.filter_congr
        intro e _
        by_cases h : e.event = some "game_initialized"
        · simp [h]
        · simp [h]
      rw [hinit]
      apply List.flatMap_congr
      intro i hi
      congr 1
      apply List.filter_congr
      intro e _
      rw [List.mem_filter] at hi
      have hig : i.gameId ≠ some g := hno i hi.1 (by simpa using hi.2)
      by_cases h : e.gameId = i.gameId
      · have heg : ¬ e.gameId = some g := by rw [h]; exact hig
        simp only [h, decide_eq_true_eq]
        simp only [decide_not, decide_eq_true_eq, not_and]
        have hr : (decide (e.event = some "game_over") &&
            !decide (e.event = some "game_over" ∧ i.gameId = some g)) =
            decide (e.event = some "game_over") := by
          by_cases ho : e.event = some "game_over"
          · simp [ho, hig]
          · simp [ho]
        simpa using hr
      · simp [h]
    rw [analyze_team_roles, analyze_team_roles, hmerged]

/-- One completed game with no matching `game_initialized` event. -/
def dfOrphanOver : List LogEntry :=
  [{ event := some "game_over", appVersion := some "v1",
     gameId := some "gX" }]

theorem C10_orphan_game_over_witness :
    (∀ m ∈ analyze_team_roles_merged dfOrphanOver, m.gameId ≠ some "gX") ∧
      analyze_team_roles (dfOrphanOver.filter fun e =>
          ¬ (e.event = some "game_over" ∧ e.gameId = some "gX")) =
        analyze_team_roles dfOrphanOver :=
  have h := C10_orphan_game_over dfOrphanOver "gX"
    (by
      intro e he hev
      rw [dfOrphanOver, List.mem_singleton] at he
      subst he
      exact absurd hev (by decide))
  ⟨h.1, h.2.2⟩

/-! ## C7 — duplicating the input lines -/

theorem distinctGames_append_self (df : List LogEntry) (v : Option String) :
    distinctGames (df ++ df) v = distinctGames df v := by
  rw [distinctGames, distinctGames, List.filter_append,
    List.filterMap_append, dedup_append_self]

theorem points_zero_of_no_wins {l : List PlayObs}
    (h : (l.filter fun o => o.wonTrick).length = 0) :
    (l.map fun o => o.trickPoints * (if o.wonTrick then 1 else 0)).sum
      = 0 := by
  apply List.sum_eq_zero
  intro x hx
  rw [List.mem_map] at hx
  obtain ⟨o, ho, rfl⟩ := hx
  have hfalse : o.wonTrick = false := by
    by_contra hc
    have htrue : o.wonTrick = true := by
      cases hw : o.wonTrick
      · exact absurd hw hc
      · rfl
    have hmem : o ∈ l.filter fun o => o.wonTrick :=
      List.mem_filter.mpr ⟨ho, htrue⟩
    rw [List.length_eq_zero.mp h] at hmem
    exact absurd hmem (List.not_mem_nil o)
  rw [hfalse]
  norm_num

theorem add_self_div_add_self (a b : ℚ) : (a + a) / (b + b) = a / b := by
  rcases eq_or_ne b 0 with hb | hb
  · simp [hb]
  · rw [show a + a = 2 * a by ring, show b + b = 2 * b by ring,
      mul_div_mul_left a b (by norm_num : (2 : ℚ) ≠ 0)]

theorem total_rounds_approx_append_self {tp : List PlayObs} (h : tp ≠ []) :
    total_rounds_approx (tp ++ tp) = 2 * total_rounds_approx tp := by
  rw [total_rounds_approx, total_rounds_approx, List.map_append,
    dedup_append_self]
  have h1 : (tp ++ tp).isEmpty = false := by
    cases tp with
    | nil => exact absurd rfl h
    | cons a l => rfl
  have h2 : tp.isEmpty = false := by
    cases tp with
    | nil => exact absurd rfl h
    | cons a l => rfl
  rw [h1, h2]
  simp only [Bool.false_eq_true, if_false, List.length_append]
  push_cast
  ring

theorem positionStatFor_append_self (tp : List PlayObs) (k : String × ℕ) :
    (positionStatFor (tp ++ tp) k).total_tricks_at_position =
        2 * (positionStatFor tp k).total_tricks_at_position ∧
      (positionStatFor (tp ++ tp) k).tricks_won_at_position =
        2 * (positionStatFor tp k).tricks_won_at_position ∧
      (positionStatFor (tp ++ tp) k).position_win_rate =
        (positionStatFor tp k).position_win_rate ∧
      (positionStatFor (tp ++ tp) k).avg_points_when_winning =
        (positionStatFor tp k).avg_points_when_winning ∧
      (positionStatFor (tp ++ tp) k).avg_points_per_round =
        (positionStatFor tp k).avg_points_per_round := by
  rcases eq_or_ne tp [] with rfl | htp
  · exact ⟨rfl, rfl, rfl, rfl, rfl⟩
  · simp only [positionStatFor, List.filter_append, List.length_append,
      List.map_append, List.sum_append]
    refine ⟨by omega, by omega, ?_, ?_, ?_⟩
    · congr 1
      push_cast
      exact add_self_div_add_self _ _
    · rcases eq_or_ne ((tp.filter fun o =>
          o.appVersion = some k.1 ∧ o.trickPosition = k.2).filter
            fun o => o.wonTrick).length 0 with hw | hw
      · have hz := points_zero_of_no_wins hw
        rw [hz, hw]
        norm_num
      · have hne : ((tp.filter fun o =>
            o.appVersion = some k.1 ∧ o.trickPosition = k.2).filter
              fun o => o.wonTrick).length +
            ((tp.filter fun o =>
            o.appVersion = some k.1 ∧ o.trickPosition = k.2).filter
              fun o => o.wonTrick).length ≠ 0 := by omega
        rw [if_neg hne, if_neg hw]
        congr 1
        push_cast
        exact add_self_div_add_self _ _
    · congr 1
      rw [total_rounds_approx_append_self htp,
        show (2 : ℚ) * total_rounds_approx tp =
          total_rounds_approx tp + total_rounds_approx tp by ring]
      exact add_self_div_add_self _ _

theorem countP_flatMap_double {α β : Type} (p : β → Bool) (f g : α → List β)
    (l : List α) (h : ∀ a ∈ l, (g a).countP p = 2 * (f a).countP p) :
    ((l ++ l).flatMap g).countP p = 4 * (l.flatMap f).countP p := by
  have key : ∀ m : List α, (∀ a ∈ m, (g a).countP p = 2 * (f a).countP p) →
      (m.flatMap g).countP p = 2 * (m.flatMap f).countP p := by
    intro m hm
    induction m with
    | nil => rfl
    | cons a t ih =>
      rw [List.flatMap_cons, List.flatMap_cons, List.countP_append,
        List.countP_append, hm a (List.mem_cons_self a t),
        ih fun x hx => hm x (List.mem_cons_of_mem a hx)]
      ring
  rw [List.flatMap_append, List.countP_append, key l h]
  ring

theorem merged_countP_append_self (df : List LogEntry)
    (p : MergedRoleRow → Bool) :
    (analyze_team_roles_merged (df ++ df)).countP p =
      4 * (analyze_team_roles_merged df).countP p := by
  simp only [analyze_team_roles_merged, List.filter_append]
  apply countP_flatMap_double
  intro i _
  rw [List.map_append, List.countP_append]
  ring

theorem mem_merged_append_self {df : List LogEntry} {m : MergedRoleRow} :
    m ∈ analyze_team_roles_merged (df ++ df) ↔
      m ∈ analyze_team_roles_merged df := by
  simp only [analyze_team_roles_merged, List.filter_append,
    List.mem_flatMap, List.mem_append, List.mem_filter]
  constructor
  · rintro ⟨i, hi | hi, hm⟩ <;>
    · rw [List.map_append] at hm
      exact ⟨i, hi, by rcases List.mem_append.mp hm with h | h <;> exact h⟩
  · rintro ⟨i, hi, hm⟩
    refine ⟨i, Or.inl hi, ?_⟩
    rw [List.map_append]
    exact List.mem_append.mpr (Or.inl hm)

theorem four_mul_ratio (a n : ℕ) :
    ((4 * a : ℕ) : ℚ) / ((4 * n : ℕ) : ℚ) = (a : ℚ) / (n : ℚ) := by
  push_cast
  rcases eq_or_ne (n : ℚ) 0 with hn | hn
  · simp [hn]
  · exact mul_div_mul_left _ _ (by norm_num)

theorem teamRoleFor_append_self (df : List LogEntry) (v : String) :
    (teamRoleFor (analyze_team_roles_merged (df ++ df)) v).attacking_team_win_rate
        = (teamRoleFor (analyze_team_roles_merged df) v).attacking_team_win_rate ∧
      (teamRoleFor (analyze_team_roles_merged (df ++ df)) v).defending_team_win_rate
        = (teamRoleFor (analyze_team_roles_merged df) v).defending_team_win_rate ∧
      (teamRoleFor (analyze_team_roles_merged (df ++ df)) v).total_games_with_roles
        = 4 * (teamRoleFor (analyze_team_roles_merged df) v).total_games_with_roles := by
  have hlen : ∀ (p : MergedRoleRow → Bool),
      ((analyze_team_roles_merged (df ++ df)).filter p).length =
        4 * ((analyze_team_roles_merged df).filter p).length := by
    intro p
    rw [← List.countP_eq_length_filter, ← List.countP_eq_length_filter,
      merged_countP_append_self]
  have hlen2 : ∀ (p q : MergedRoleRow → Bool),
      (((analyze_team_roles_merged (df ++ df)).filter p).filter q).length =
        4 * (((analyze_team_roles_merged df).filter p).filter q).length := by
    intro p q
    rw [List.filter_filter, List.filter_filter, hlen]
  have hfm : ∀ (p : MergedRoleRow → Bool),
      (((analyze_team_roles_merged (df ++ df)).filter p).filterMap
          fun m => m.gameId).length =
        4 * (((analyze_team_roles_merged df).filter p).filterMap
          fun m => m.gameId).length := by
    intro p
    rw [length_filterMap_eq_countP, length_filterMap_eq_countP,
      List.countP_filter, List.countP_filter, merged_countP_append_self]
  simp only [teamRoleFor]
  refine ⟨?_, ?_, hfm _⟩
  · rw [hlen2, hlen, four_mul_ratio]
  · rw [hlen2, hlen, four_mul_ratio]

theorem roundRows_append_self (df : List LogEntry) :
    roundRows (df ++ df) = roundRows df ++ roundRows df := by
  rw [roundRows, roundRows, List.filter_append, List.map_append]

theorem isEmpty_append_self {α : Type} (l : List α) :
    (l ++ l).isEmpty = l.isEmpty := by
  cases l <;> rfl

theorem roundEffFor_append_self (rr : List RoundRow) (v : String) :
    (roundEffFor (rr ++ rr) v).total_rounds =
        2 * (roundEffFor rr v).total_rounds ∧
      (roundEffFor (rr ++ rr) v).avg_final_points =
        (roundEffFor rr v).avg_final_points ∧
      (roundEffFor (rr ++ rr) v).attacking_round_win_rate =
        (roundEffFor rr v).attacking_round_win_rate ∧
      (roundEffFor (rr ++ rr) v).avg_attacking_win_points =
        (roundEffFor rr v).avg_attacking_win_points ∧
      (roundEffFor (rr ++ rr) v).avg_defending_win_points =
        (roundEffFor rr v).avg_defending_win_points := by
  simp only [roundEffFor, List.filter_append, List.filterMap_append,
    List.length_append, List.map_append, List.sum_append]
  refine ⟨by omega, ?_, ?_, ?_, ?_⟩
  · congr 1
    push_cast
    exact add_self_div_add_self _ _
  · congr 1
    push_cast
    exact add_self_div_add_self _ _
  · rw [isEmpty_append_self, isEmpty_append_self]
    rcases eq_or_ne ((rr.filter fun r => r.attacking_won).isEmpty) true with
      haw | haw
    · rw [haw]
      rfl
    · rw [Bool.eq_false_iff.mpr haw]
      simp only [Bool.false_eq_true, if_false]
      rcases eq_or_ne (((rr.filter fun r => r.attacking_won).filter
          fun r => r.appVersion = some v).isEmpty) true with hga | hga
      · rw [hga]
        rfl
      · rw [Bool.eq_false_iff.mpr hga]
        simp only [Bool.false_eq_true, if_false]
        congr 2
        push_cast
        exact add_self_div_add_self _ _
  · rw [isEmpty_append_self, isEmpty_append_self]
    rcases eq_or_ne ((rr.filter fun r => ¬ r.attacking_won).isEmpty) true with
      haw | haw
    · rw [haw]
      rfl
    · rw [Bool.eq_false_iff.mpr haw]
      simp only [Bool.false_eq_true, if_false]
      rcases eq_or_ne (((rr.filter fun r => ¬ r.attacking_won).filter
          fun r => r.appVersion = some v).isEmpty) true with hga | hga
      · rw [hga]
        rfl
      · rw [Bool.eq_false_iff.mpr hga]
        simp only [Bool.false_eq_true, if_false]
        congr 2
        push_cast
        exact add_self_div_add_self _ _

theorem aiEffFor_append_self (rows : List AIDecisionRow) (v : String) :
    (aiEffFor (rows ++ rows) v).avg_decision_score =
        (aiEffFor rows v).avg_decision_score ∧
      (aiEffFor (rows ++ rows) v).reasoning_rate =
        (aiEffFor rows v).reasoning_rate ∧
      (aiEffFor (rows ++ rows) v).attacking_decision_rate =
        (aiEffFor rows v).attacking_decision_rate ∧
      (aiEffFor (rows ++ rows) v).leading_decision_rate =
        (aiEffFor rows v).leading_decision_rate ∧
      (aiEffFor (rows ++ rows) v).total_decisions =
        2 * (aiEffFor rows v).total_decisions := by
  simp only [aiEffFor, List.filter_append, List.filterMap_append,
    List.length_append, List.map_append, List.sum_append]
  refine ⟨?_, ?_, ?_, ?_, by omega⟩ <;>
    · congr 1
      push_cast
      exact add_self_div_add_self _ _

set_option maxHeartbeats 1600000 in
/-- C7: appending a duplicate copy of the input lines duplicates the parsed
entries; the Game-counts view — a distinct count of `gameId` — is exactly
unchanged (idempotent); every rate metric of every other view (position win
rate and both position point averages, team win rates, round-efficiency
means and attacking round win rate, all AI decision rates, kitty average)
is unchanged, while the raw counts scale: flattened observations, position
trick counts, round counts, AI decision counts and kitty event counts
double, and the team-role merged-pair count quadruples (each duplicated
`game_initialized` row joins each duplicated `game_over` row). -/
theorem C7_duplication_consistency (decode : String → Option LogEntry)
    (lines : List String) (df : List LogEntry) :
    load_logs decode (lines ++ lines) =
        load_logs decode lines ++ load_logs decode lines ∧
      analyze_game_stats (df ++ df) = analyze_game_stats df ∧
      analyze_trick_performance (df ++ df) =
        analyze_trick_performance df ++ analyze_trick_performance df ∧
      (∀ tp : List PlayObs, positionKeys (tp ++ tp) = positionKeys tp) ∧
      (∀ tp : List PlayObs, ∀ k : String × ℕ,
        (positionStatFor (tp ++ tp) k).total_tricks_at_position =
            2 * (positionStatFor tp k).total_tricks_at_position ∧
          (positionStatFor (tp ++ tp) k).position_win_rate =
            (positionStatFor tp k).position_win_rate ∧
          (positionStatFor (tp ++ tp) k).avg_points_when_winning =
            (positionStatFor tp k).avg_points_when_winning ∧
          (positionStatFor (tp ++ tp) k).avg_points_per_round =
            (positionStatFor tp k).avg_points_per_round) ∧
      (∀ v : String,
        (v ∈ ((analyze_team_roles_merged (df ++ df)).filterMap
            fun m => m.appVersion).dedup ↔
          v ∈ ((analyze_team_roles_merged df).filterMap
            fun m => m.appVersion).dedup) ∧
        (teamRoleFor (analyze_team_roles_merged (df ++ df))
            v).attacking_team_win_rate =
          (teamRoleFor (analyze_team_roles_merged df)
            v).attacking_team_win_rate ∧
        (teamRoleFor (analyze_team_roles_merged (df ++ df))
            v).defending_team_win_rate =
          (teamRoleFor (analyze_team_roles_merged df)
            v).defending_team_win_rate ∧
        (teamRoleFor (analyze_team_roles_merged (df ++ df))
            v).total_games_with_roles =
          4 * (teamRoleFor (analyze_team_roles_merged df)
            v).total_games_with_roles) ∧
      ((analyze_round_efficiency (df ++ df)).map fun x =>
          (x.appVersion, x.avg_final_points, x.attacking_round_win_rate,
            x.avg_attacking_win_points, x.avg_defending_win_points)) =
        ((analyze_round_efficiency df).map fun x =>
          (x.appVersion, x.avg_final_points, x.attacking_round_win_rate,
            x.avg_attacking_win_points, x.avg_defending_win_points)) ∧
      ((analyze_round_efficiency (df ++ df)).map fun x => x.total_rounds) =
        ((analyze_round_efficiency df).map fun x => 2 * x.total_rounds) ∧
      ((analyze_ai_strategic_effectiveness (df ++ df)).map fun a =>
          (a.appVersion, a.avg_decision_score, a.reasoning_rate,
            a.attacking_decision_rate, a.leading_decision_rate)) =
        ((analyze_ai_strategic_effectiveness df).map fun a =>
          (a.appVersion, a.avg_decision_score, a.reasoning_rate,
            a.attacking_decision_rate, a.leading_decision_rate)) ∧
      ((analyze_ai_strategic_effectiveness (df ++ df)).map
          fun a => a.total_decisions) =
        ((analyze_ai_strategic_effectiveness df).map
          fun a => 2 * a.total_decisions) ∧
      ((analyze_efficiency_stats (df ++ df)).map fun k =>
          (k.appVersion, k.avg_kitty_points)) =
        ((analyze_efficiency_stats df).map fun k =>
          (k.appVersion, k.avg_kitty_points)) ∧
      ((analyze_efficiency_stats (df ++ df)).map fun k => k.kitty_events) =
        ((analyze_efficiency_stats df).map fun k => 2 * k.kitty_events) := by
  refine ⟨List.filterMap_append lines lines decode, ?_, ?_, ?_, ?_, ?_,
    ?_, ?_, ?_, ?_, ?_, ?_⟩
  · rw [analyze_game_stats, analyze_game_stats, List.filter_append,
      List.map_append, dedup_append_self]
    apply List.map_congr_left
    intro v _
    rw [distinctGames_append_self]
  · rw [analyze_trick_performance, analyze_trick_performance,
      List.filter_append, List.flatMap_append]
  · intro tp
    rw [positionKeys, positionKeys, List.filterMap_append,
      dedup_append_self]
  · intro tp k
    have h := positionStatFor_append_self tp k
    exact ⟨h.1, h.2.2.1, h.2.2.2.1, h.2.2.2.2⟩
  · intro v
    have h := teamRoleFor_append_self df v
    refine ⟨?_, h.1, h.2.1, h.2.2⟩
    simp only [List.mem_dedup, List.mem_filterMap]
    constructor
    · rintro ⟨m, hm, hv⟩
      exact ⟨m, mem_merged_append_self.mp hm, hv⟩
    · rintro ⟨m, hm, hv⟩
      exact ⟨m, mem_merged_append_self.mpr hm, hv⟩
  · rw [analyze_round_efficiency, analyze_round_efficiency,
      roundRows_append_self]
    rcases eq_or_ne (roundRows df) [] with h | h
    · simp [h]
    · have h1 : (roundRows df ++ roundRows df).isEmpty = false := by
        rw [isEmpty_append_self]
        cases hc : roundRows df
        · exact absurd hc h
        · rfl
      have h2 : (roundRows df).isEmpty = false := by
        cases hc : roundRows df
        · exact absurd hc h
        · rfl
      rw [h1, h2]
      simp only [Bool.false_eq_true, if_false, List.filterMap_append,
        dedup_append_self, List.map_map]
      apply List.map_congr_left
      intro v _
      have hfields := roundEffFor_append_self (roundRows df) v
      simp only [Function.comp_apply, hfields.2.1, hfields.2.2.1,
        hfields.2.2.2.1, hfields.2.2.2.2]
      rfl
  · rw [analyze_round_efficiency, analyze_round_efficiency,
      roundRows_append_self]
    rcases eq_or_ne (roundRows df) [] with h | h
    · simp [h]
    · have h1 : (roundRows df ++ roundRows df).isEmpty = false := by
        rw [isEmpty_append_self]
        cases hc : roundRows df
        · exact absurd hc h
        · rfl
      have h2 : (roundRows df).isEmpty = false := by
        cases hc : roundRows df
        · exact absurd hc h
        · rfl
      rw [h1, h2]
      simp only [Bool.false_eq_true, if_false, List.filterMap_append,
        dedup_append_self, List.map_map]
      apply List.map_congr_left
      intro v _
      exact (roundEffFor_append_self (roundRows df) v).1
  · rw [analyze_ai_strategic_effectiveness,
      analyze_ai_strategic_effectiveness, List.filter_append]
    rcases eq_or_ne (df.filter fun e =>
        e.event = some "ai_leading_decision" ∨
        e.event = some "ai_following_decision") [] with h | h
    · rw [h]
      rfl
    · have h1 : ((df.filter fun e =>
          e.event = some "ai_leading_decision" ∨
          e.event = some "ai_following_decision") ++
          (df.filter fun e =>
          e.event = some "ai_leading_decision" ∨
          e.event = some "ai_following_decision")).isEmpty = false := by
        rw [isEmpty_append_self]
        cases hc : df.filter fun e =>
            e.event = some "ai_leading_decision" ∨
            e.event = some "ai_following_decision"
        · exact absurd hc h
        · rfl
      have h2 : (df.filter fun e =>
          e.event = some "ai_leading_decision" ∨
          e.event = some "ai_following_decision").isEmpty = false := by
        cases hc : df.filter fun e =>
            e.event = some "ai_leading_decision" ∨
            e.event = some "ai_following_decision"
        · exact absurd hc h
        · rfl
      rw [h1, h2]
      simp only [Bool.false_eq_true, if_false, List.map_append,
        List.filterMap_append, dedup_append_self, List.map_map]
      apply List.map_congr_left
      intro v _
      have hfields := aiEffFor_append_self ((df.filter fun e =>
          e.event = some "ai_leading_decision" ∨
          e.event = some "ai_following_decision").map aiRow) v
      simp only [Function.comp_apply, hfields.1, hfields.2.1,
        hfields.2.2.1, hfields.2.2.2.1]
      rfl
  · rw [analyze_ai_strategic_effectiveness,
      analyze_ai_strategic_effectiveness, List.filter_append]
    rcases eq_or_ne (df.filter fun e =>
        e.event = some "ai_leading_decision" ∨
        e.event = some "ai_following_decision") [] with h | h
    · rw [h]
      rfl
    · have h1 : ((df.filter fun e =>
          e.event = some "ai_leading_decision" ∨
          e.event = some "ai_following_decision") ++
          (df.filter fun e =>
          e.event = some "ai_leading_decision" ∨
          e.event = some "ai_following_decision")).isEmpty = false := by
        rw [isEmpty_append_self]
        cases hc : df.filter fun e =>
            e.event = some "ai_leading_decision" ∨
            e.event = some "ai_following_decision"
        · exact absurd hc h
        · rfl
      have h2 : (df.filter fun e =>
          e.event = some "ai_leading_decision" ∨
          e.event = some "ai_following_decision").isEmpty = false := by
        cases hc : df.filter fun e =>
            e.event = some "ai_leading_decision" ∨
            e.event = some "ai_following_decision"
        · exact absurd hc h
        · rfl
      rw [h1, h2]
      simp only [Bool.false_eq_true, if_false, List.map_append,
        List.filterMap_append, dedup_append_self, List.map_map]
      apply List.map_congr_left
      intro v _
      have hfields := aiEffFor_append_self ((df.filter fun e =>
          e.event = some "ai_leading_decision" ∨
          e.event = some "ai_following_decision").map aiRow) v
      simp only [Function.comp_apply, hfields.2.2.2.2]
  · simp only [analyze_efficiency_stats, List.filter_append]
    rcases eq_or_ne (df.filter fun e => e.event = some "kitty_pickup") []
      with h | h
    · simp [h]
    · have h1 : ((df.filter fun e => e.event = some "kitty_pickup") ++
          (df.filter fun e => e.event = some "kitty_pickup")).isEmpty
            = false := by
        rw [isEmpty_append_self]
        cases hc : df.filter fun e => e.event = some "kitty_pickup"
        · exact absurd hc h
        · rfl
      have h2 : (df.filter fun e =>
          e.event = some "kitty_pickup").isEmpty = false := by
        cases hc : df.filter fun e => e.event = some "kitty_pickup"
        · exact absurd hc h
        · rfl
      rw [h1, h2]
      simp only [Bool.false_eq_true, if_false, List.filterMap_append,
        dedup_append_self, List.map_map]
      apply List.map_congr_left
      intro v _
      simp only [Function.comp_apply, List.filter_append,
        List.length_append, List.map_append, List.sum_append]
      congr 2
      push_cast
      exact add_self_div_add_self _ _
  · simp only [analyze_efficiency_stats, List.filter_append]
    rcases eq_or_ne (df.filter fun e => e.event = some "kitty_pickup") []
      with h | h
    · simp [h]
    · have h1 : ((df.filter fun e => e.event = some "kitty_pickup") ++
          (df.filter fun e => e.event = some "kitty_pickup")).isEmpty
            = false := by
        rw [isEmpty_append_self]
        cases hc : df.filter fun e => e.event = some "kitty_pickup"
        · exact absurd hc h
        · rfl
      have h2 : (df.filter fun e =>
          e.event = some "kitty_pickup").isEmpty = false := by
        cases hc : df.filter fun e => e.event = some "kitty_pickup"
        · exact absurd hc h
        · rfl
      rw [h1, h2]
      simp only [Bool.false_eq_true, if_false, List.filterMap_append,
        dedup_append_self, List.map_map]
      apply List.map_congr_left
      intro v _
      simp only [Function.comp_apply, List.filter_append,
        List.filterMap_append, List.length_append]
      omega

/-! ## C6 — the Report Merger -/

/-- C6: the report has exactly one row per version of the Game-counts view,
in order (so versions seen only by secondary views are dropped); a version
with no match in a secondary view gets `none` — never `0` — in every column
of that view; `avg_rounds_per_game` is absent whenever `total_rounds` is
absent and otherwise equals `total_rounds / total_games` rounded to one
decimal place. -/
theorem C6_merger_left_join (df : List LogEntry) :
    ((generate_final_report df).map fun r => r.appVersion) =
      ((analyze_game_stats df).map fun gs => gs.appVersion) ∧
    ∀ r ∈ generate_final_report df,
      ((∀ t ∈ analyze_team_roles df, some t.appVersion ≠ r.appVersion) →
        r.attacking_team_win_rate = none ∧
        r.defending_team_win_rate = none) ∧
      ((∀ x ∈ analyze_round_efficiency df,
          some x.appVersion ≠ r.appVersion) →
        r.total_rounds = none ∧ r.avg_final_points = none ∧
        r.attacking_round_win_rate = none ∧
        r.avg_attacking_win_points = none ∧
        r.avg_defending_win_points = none ∧ r.avg_rounds_per_game = none) ∧
      ((∀ k ∈ analyze_efficiency_stats df,
          some k.appVersion ≠ r.appVersion) →
        r.avg_kitty_points = none) ∧
      ((∀ a ∈ analyze_ai_strategic_effectiveness df,
          some a.appVersion ≠ r.appVersion) →
        r.avg_decision_score = none ∧ r.reasoning_rate = none ∧
        r.attacking_decision_rate = none) ∧
      (r.total_rounds = none → r.avg_rounds_per_game = none) ∧
      (∀ n : ℕ, r.total_rounds = some n → 0 < r.total_games →
        r.avg_rounds_per_game =
          some (roundTo 1 ((n : ℚ) / (r.total_games : ℚ)))) := by
  constructor
  · simp only [generate_final_report, List.map_map]
    rfl
  · intro r hr
    simp only [generate_final_report, List.mem_map] at hr
    obtain ⟨gs, hgs, rfl⟩ := hr
    refine ⟨?_, ?_, ?_, ?_, ?_, ?_⟩
    · intro hyp
      have hf : (analyze_team_roles df).find?
          (fun t => some t.appVersion = gs.appVersion) = none :=
        List.find?_eq_none.mpr fun t ht => by simpa using hyp t ht
      exact ⟨by simp [hf], by simp [hf]⟩
    · intro hyp
      have hf : (analyze_round_efficiency df).find?
          (fun x => some x.appVersion = gs.appVersion) = none :=
        List.find?_eq_none.mpr fun x hx => by simpa using hyp x hx
      exact ⟨by simp [hf], by simp [hf], by simp [hf], by simp [hf],
        by simp [hf], by simp [hf]⟩
    · intro hyp
      have hf : (analyze_efficiency_stats df).find?
          (fun k => some k.appVersion = gs.appVersion) = none :=
        List.find?_eq_none.mpr fun k hk => by simpa using hyp k hk
      simp [hf]
    · intro hyp
      have hf : (analyze_ai_strategic_effectiveness df).find?
          (fun a => some a.appVersion = gs.appVersion) = none :=
        List.find?_eq_none.mpr fun a ha => by simpa using hyp a ha
      exact ⟨by simp [hf], by simp [hf], by simp [hf]⟩
    · intro h0
      simp only [Option.map_eq_none'] at h0
      simp [h0]
    · intro n hn _
      simp only [Option.map_eq_some'] at hn
      obtain ⟨x, hx, hxn⟩ := hn
      simp [hx, hxn]

theorem C6_merger_left_join_witness :
    ({ appVersion := some "v1", total_games := 1,
       attacking_team_win_rate := none, defending_team_win_rate := none,
       total_rounds := none, avg_final_points := none,
       attacking_round_win_rate := none, avg_attacking_win_points := none,
       avg_defending_win_points := none, avg_rounds_per_game := none,
       position_1_win_rate := none, position_2_win_rate := none,
       position_3_win_rate := none, position_4_win_rate := none,
       position_1_avg_points := none, position_2_avg_points := none,
       position_3_avg_points := none, position_4_avg_points := none,
       position_1_points_per_round := none,
       position_2_points_per_round := none,
       position_3_points_per_round := none,
       position_4_points_per_round := none,
       avg_kitty_points := none, avg_decision_score := none,
       reasoning_rate := none,
       attacking_decision_rate := none } : KPIRow).attacking_team_win_rate
        = none ∧
      ({ appVersion := some "v1", total_games := 1,
         attacking_team_win_rate := none, defending_team_win_rate := none,
         total_rounds := none, avg_final_points := none,
         attacking_round_win_rate := none, avg_attacking_win_points := none,
         avg_defending_win_points := none, avg_rounds_per_game := none,
         position_1_win_rate := none, position_2_win_rate := none,
         position_3_win_rate := none, position_4_win_rate := none,
         position_1_avg_points := none, position_2_avg_points := none,
         position_3_avg_points := none, position_4_avg_points := none,
         position_1_points_per_round := none,
         position_2_points_per_round := none,
         position_3_points_per_round := none,
         position_4_points_per_round := none,
         avg_kitty_points := none, avg_decision_score := none,
         reasoning_rate := none,
         attacking_decision_rate := none } : KPIRow).avg_rounds_per_game
        = none := by
  have h := (C6_merger_left_join dfOrphanOver).2
    { appVersion := some "v1", total_games := 1,
      attacking_team_win_rate := none, defending_team_win_rate := none,
      total_rounds := none, avg_final_points := none,
      attacking_round_win_rate := none, avg_attacking_win_points := none,
      avg_defending_win_points := none, avg_rounds_per_game := none,
      position_1_win_rate := none, position_2_win_rate := none,
      position_3_win_rate := none, position_4_win_rate := none,
      position_1_avg_points := none, position_2_avg_points := none,
      position_3_avg_points := none, position_4_avg_points := none,
      position_1_points_per_round := none,
      position_2_points_per_round := none,
      position_3_points_per_round := none,
      position_4_points_per_round := none,
      avg_kitty_points := none, avg_decision_score := none,
      reasoning_rate := none, attacking_decision_rate := none }
    (by
      rw [show generate_final_report dfOrphanOver =
        [{ appVersion := some "v1", total_games := 1,
           attacking_team_win_rate := none, defending_team_win_rate := none,
           total_rounds := none, avg_final_points := none,
           attacking_round_win_rate := none,
           avg_attacking_win_points := none,
           avg_defending_win_points := none, avg_rounds_per_game := none,
           position_1_win_rate := none, position_2_win_rate := none,
           position_3_win_rate := none, position_4_win_rate := none,
           position_1_avg_points := none, position_2_avg_points := none,
           position_3_avg_points := none, position_4_avg_points := none,
           position_1_points_per_round := none,
           position_2_points_per_round := none,
           position_3_points_per_round := none,
           position_4_points_per_round := none,
           avg_kitty_points := none, avg_decision_score := none,
           reasoning_rate := none,
           attacking_decision_rate := none }] from rfl]
      exact List.mem_singleton_self _)
  exact ⟨(h.1 (by decide)).1, h.2.2.2.2.1 rfl⟩

end TractorKPI
